import Mathlib

/-!
Shallow embedding of the reconciliation engine in reactive/grafana.py:
the datasource reconciliation (check_datasource, generate_query,
configure_sources) and the admin credential rotation (check_adminuser,
hpwgen, db_init).  SQL statements are embedded as the literal statement
strings the source builds, together with an interpreter giving the SQLite
semantics of exactly those statements on an in-memory table.
-/

namespace Grafana

/-- A SQL parameter value: the source binds only integers and strings. -/
inductive Value where
  | int (n : Int)
  | str (s : String)
deriving Repr, DecidableEq

/-- A desired datasource descriptor, the dict ds handed to check_datasource:
service_name, url, description, type, and the optional keys username and
password (Option models dict-key presence). -/
structure Datasource where
  service_name : String
  url : String
  description : String
  type : String
  username : Option String
  password : Option String
deriving Repr, DecidableEq

/-- A row of the data_source table, following the CREATE TABLE schema quoted
in the docstring of check_datasource.  Nullable columns are Option. -/
structure DataSourceRow where
  id : Int
  org_id : Int
  version : Int
  type : String
  name : String
  access : String
  url : String
  password : Option String
  user : Option String
  database : Option String
  basic_auth : Int
  basic_auth_user : Option String
  basic_auth_password : Option String
  is_default : Int
  json_data : Option String
  created : String
  updated : String
  with_credentials : Int
deriving Repr, DecidableEq

/-- Python truthiness of the optional id argument of generate_query:
None and 0 are falsy. -/
def pyIntTruthy : Option Int → Bool
  | none => false
  | some n => n != 0

/-- Embedding of generate_query(ds, is_default, id=None).  The statement
strings are built by the same concatenations as the source; dtime stands
for datetime.datetime.today().strftime, passed in explicitly. -/
def generate_query (ds : Datasource) (is_default : Int) (id : Option Int)
    (dtime : String) : String × List Value :=
  if pyIntTruthy id = false then
    let stmt := "INSERT INTO DATA_SOURCE (org_id, version, type, name" ++
                ", access, url, is_default, created, updated, basic_auth"
    match ds.username, ds.password with
    | some u, some p =>
        (stmt ++ ", basic_auth_user, basic_auth_password)" ++
           " VALUES (?,?,?,?,?,?,?,?,?,?,?,?)",
         [Value.int 1, Value.int 0, Value.str ds.type,
          Value.str (ds.service_name ++ " - " ++ ds.description),
          Value.str "proxy", Value.str ds.url, Value.int is_default,
          Value.str dtime, Value.str dtime,
          Value.int 1, Value.str u, Value.str p])
    | _, _ =>
        (stmt ++ ") VALUES (?,?,?,?,?,?,?,?,?,?)",
         [Value.int 1, Value.int 0, Value.str ds.type,
          Value.str (ds.service_name ++ " - " ++ ds.description),
          Value.str "proxy", Value.str ds.url, Value.int is_default,
          Value.str dtime, Value.str dtime,
          Value.int 0])
  else
    match ds.username, ds.password with
    | some u, some p =>
        ("UPDATE DATA_SOURCE SET basic_auth_user = ?, basic_auth_password = ?, basic_auth = 1",
         [Value.str u, Value.str p])
    | _, _ =>
        ("UPDATE DATA_SOURCE SET basic_auth_user = ?, basic_auth_password = ?, basic_auth = 0",
         [Value.str "", Value.str ""])

/-- The fully concatenated INSERT statement with basic-auth columns. -/
def insertAuthStmt : String :=
  "INSERT INTO DATA_SOURCE (org_id, version, type, name, access, url, is_default, created, updated, basic_auth, basic_auth_user, basic_auth_password) VALUES (?,?,?,?,?,?,?,?,?,?,?,?)"

/-- The fully concatenated INSERT statement without basic-auth columns. -/
def insertNoAuthStmt : String :=
  "INSERT INTO DATA_SOURCE (org_id, version, type, name, access, url, is_default, created, updated, basic_auth) VALUES (?,?,?,?,?,?,?,?,?,?)"

/-- The UPDATE statement setting basic_auth = 1.  Note: no WHERE clause. -/
def updateAuthStmt : String :=
  "UPDATE DATA_SOURCE SET basic_auth_user = ?, basic_auth_password = ?, basic_auth = 1"

/-- The UPDATE statement setting basic_auth = 0.  Note: no WHERE clause. -/
def updateNoAuthStmt : String :=
  "UPDATE DATA_SOURCE SET basic_auth_user = ?, basic_auth_password = ?, basic_auth = 0"

/-- Next AUTOINCREMENT id for the in-memory table. -/
def nextId (table : List DataSourceRow) : Int :=
  (table.foldl (fun m r => max m r.id) 0) + 1

/-- SQLite semantics of the four statements generate_query can produce, on
an in-memory data_source table.  An INSERT appends a row whose unnamed
nullable columns are NULL and whose with_credentials takes its schema
default 0; an UPDATE without a WHERE clause rewrites every row of the
table.  Any other statement or parameter shape leaves the table unchanged
(generate_query never produces such a pair). -/
def applyQuery (q : String × List Value) (table : List DataSourceRow) :
    List DataSourceRow :=
  match q with
  | (stmt, values) =>
    if stmt = insertAuthStmt then
      match values with
      | [Value.int o, Value.int v, Value.str t, Value.str n, Value.str a,
         Value.str u, Value.int d, Value.str c, Value.str up,
         Value.int ba, Value.str bau, Value.str bap] =>
          table ++ [{ id := nextId table, org_id := o, version := v,
                      type := t, name := n, access := a, url := u,
                      password := none, user := none, database := none,
                      basic_auth := ba, basic_auth_user := some bau,
                      basic_auth_password := some bap, is_default := d,
                      json_data := none, created := c, updated := up,
                      with_credentials := 0 }]
      | _ => table
    else if stmt = insertNoAuthStmt then
      match values with
      | [Value.int o, Value.int v, Value.str t, Value.str n, Value.str a,
         Value.str u, Value.int d, Value.str c, Value.str up,
         Value.int ba] =>
          table ++ [{ id := nextId table, org_id := o, version := v,
                      type := t, name := n, access := a, url := u,
                      password := none, user := none, database := none,
                      basic_auth := ba, basic_auth_user := none,
                      basic_auth_password := none, is_default := d,
                      json_data := none, created := c, updated := up,
                      with_credentials := 0 }]
      | _ => table
    else if stmt = updateAuthStmt then
      match values with
      | [Value.str bau, Value.str bap] =>
          table.map (fun r =>
            { r with basic_auth_user := some bau,
                     basic_auth_password := some bap, basic_auth := 1 })
      | _ => table
    else if stmt = updateNoAuthStmt then
      match values with
      | [Value.str bau, Value.str bap] =>
          table.map (fun r =>
            { r with basic_auth_user := some bau,
                     basic_auth_password := some bap, basic_auth := 0 })
      | _ => table
    else table

/-- The natural-key test of the loop in check_datasource:
row[1] == type, row[2] == derived display name, row[3] == url. -/
def matchesDS (ds : Datasource) (row : DataSourceRow) : Bool :=
  row.type == ds.type &&
  row.name == (ds.service_name ++ " - " ++ ds.description) &&
  row.url == ds.url

/-- Embedding of check_datasource(ds): scan the rows in order; on the first
natural-key match run the update-path generate_query with the matched rows
is_default and id and return; otherwise run the insert-path generate_query
with is_default 0.  Returns the executed statement pair and the resulting
table. -/
def check_datasource (ds : Datasource) (table : List DataSourceRow)
    (dtime : String) : (String × List Value) × List DataSourceRow :=
  match table.find? (matchesDS ds) with
  | some row =>
      let q := generate_query ds row.is_default (some row.id) dtime
      (q, applyQuery q table)
  | none =>
      let q := generate_query ds 0 none dtime
      (q, applyQuery q table)

/-- One reconciliation attempt for a single datasource, with the store
failure mode of section 5 of the design: sqlite3.connect or cur.execute
raises when the store is locked or unavailable, and check_datasource
contains no exception handler, so the attempt either raises or completes
the whole read-resolve-plan-execute step. -/
def check_datasourceE (busy : Bool) (ds : Datasource)
    (table : List DataSourceRow) (dtime : String) :
    Except String (List DataSourceRow) :=
  if busy then Except.error "database is locked"
  else Except.ok (check_datasource ds table dtime).2

/-- The loop body of configure_sources after the data_changed guard:
for ds in sources: check_datasource(ds).  There is no try/except in the
loop, so a raised exception unwinds it, exactly as the Except
short-circuits here.  Returns the list of datasources whose reconciliation
was attempted before the pass ended, and the outcome. -/
def reconcile_all (busy : Bool) (dtime : String)
    (table : List DataSourceRow) :
    List Datasource → List Datasource × Except String (List DataSourceRow)
  | [] => ([], Except.ok table)
  | d :: rest =>
    match check_datasourceE busy d table dtime with
    | Except.error e => ([d], Except.error e)
    | Except.ok t2 =>
        let res := reconcile_all busy dtime t2 rest
        (d :: res.1, res.2)

/-- Modelled from the spec: data_changed (from charms.reactive.helpers, a
library outside this repository) stores the value under the key and
returns whether it differed from the previously stored value, i.e.
structural equality against the last-applied snapshot.  The cache models
the kv entry for the key grafana.sources. -/
def data_changed (cache : Option (List Datasource))
    (value : List Datasource) :
    Bool × Option (List Datasource) :=
  (decide (cache ≠ some value), some value)

/-- Outcome of one configure_sources invocation: the new snapshot cache,
the datasources whose reconciliation was attempted, and the table result. -/
structure PassResult where
  cache : Option (List Datasource)
  attempted : List Datasource
  result : Except String (List DataSourceRow)

/-- Embedding of configure_sources(relation): if data_changed reports the
snapshot unchanged, return at once without touching the store; otherwise
reconcile each datasource in order. -/
def configure_sources (busy : Bool) (dtime : String)
    (cache : Option (List Datasource)) (table : List DataSourceRow)
    (sources : List Datasource) : PassResult :=
  let dc := data_changed cache sources
  if dc.1 = false then
    { cache := dc.2, attempted := [], result := Except.ok table }
  else
    let res := reconcile_all busy dtime table sources
    { cache := dc.2, attempted := res.1, result := res.2 }

/-- The digest argument handed to the PBKDF2 primitive; the source always
passes hashlib.sha256. -/
inductive HashName where
  | sha256
deriving Repr, DecidableEq

/-- A row of the user table, following the CREATE TABLE schema quoted in
the docstring of check_adminuser.  The salt is kept as a plain string:
the admin row the code rotates always carries one, and the PBKDF2 call
would not accept a missing salt. -/
structure UserRow where
  id : Int
  version : Int
  login : String
  email : String
  name : Option String
  password : Option String
  salt : String
  rands : Option String
  company : Option String
  org_id : Int
  is_admin : Int
  email_verified : Option Int
  theme : Option String
  created : String
  updated : String
deriving Repr, DecidableEq

/-- Embedding of hpwgen(passwd, salt): the call
pbkdf2.PBKDF2(passwd, salt, 10000, hashlib.sha256).hexread(50).  The
PBKDF2 library primitive is outside this repository and is abstracted as
the argument kdf, taking the plaintext, the salt, the iteration count,
the digest, and the number of derived bytes to hex-encode. -/
def hpwgen (kdf : String → String → Nat → HashName → Nat → String)
    (passwd salt : String) : String :=
  kdf passwd salt 10000 HashName.sha256 50

/-- Python truthiness of an optional configuration string: an absent key
and the empty string are falsy. -/
def pyStrTruthy : Option String → Bool
  | none => false
  | some s => s != ""

/-- Embedding of check_adminuser().  Configuration reads are passed in as
cfg_pw (admin_password) and cfg_ctx (nagios_context); pwgen_out stands for
the output host.pwgen(16) would produce on this invocation; kv is the
unitdata key grafana.admin_password.  When the configured password is
falsy the code generates a fresh password and stores it in kv; it never
reads the kv key back.  The UPDATE statement of the source sets email,
name (to the literal BootStack Team), password and theme for the rows
whose id equals the id of the first row whose login is admin, and only
runs when the derived hash is truthy.  The surrounding try/except catches
operational errors, so the function is total.  Returns the new kv entry
and the new user table. -/
def check_adminuser (kdf : String → String → Nat → HashName → Nat → String)
    (cfg_pw cfg_ctx : Option String) (pwgen_out : String)
    (kv : Option String) (users : List UserRow) :
    Option String × List UserRow :=
  let passwd := if pyStrTruthy cfg_pw then cfg_pw.getD "" else pwgen_out
  let kv2 := if pyStrTruthy cfg_pw then kv else some pwgen_out
  let users2 :=
    match users.find? (fun row => row.login == "admin") with
    | none => users
    | some row =>
        let ctx := if pyStrTruthy cfg_ctx then cfg_ctx.getD "" else "UNKNOWN"
        let email := "root+" ++ ctx ++ "@canonical.com"
        let hp := hpwgen kdf passwd row.salt
        if hp = "" then users
        else users.map (fun r =>
          if r.id == row.id then
            { r with email := email, name := some "BootStack Team",
                     password := some hp, theme := some "light" }
          else r)
  (kv2, users2)

/-- The unit state the credential bootstrap depends on: the only_once
marker of db_init, the cached generated password, and the user table. -/
structure CharmState where
  only_once_done : Bool
  kv_admin_password : Option String
  users : List UserRow
deriving Repr

/-- Embedding of db_init(): decorated only_once, so the body, which calls
check_adminuser after a fixed sleep, runs only if the marker is unset.
Returns the new state and whether a rotation ran. -/
def db_init (kdf : String → String → Nat → HashName → Nat → String)
    (cfg_pw cfg_ctx : Option String) (pwgen_out : String)
    (st : CharmState) : CharmState × Bool :=
  if st.only_once_done then (st, false)
  else
    let r := check_adminuser kdf cfg_pw cfg_ctx pwgen_out
               st.kv_admin_password st.users
    ({ only_once_done := true, kv_admin_password := r.1, users := r.2 },
     true)

/-- A sequence of hook invocations that reach db_init (check_config runs
db_init on every config-changed event); each event carries the password
host.pwgen(16) would generate during it.  Returns the final state and how
many rotations ran. -/
def run_events (kdf : String → String → Nat → HashName → Nat → String)
    (cfg_pw cfg_ctx : Option String) (st : CharmState) :
    List String → CharmState × Nat
  | [] => (st, 0)
  | g :: gs =>
    let r := db_init kdf cfg_pw cfg_ctx g st
    let rest := run_events kdf cfg_pw cfg_ctx r.1 gs
    (rest.1, (if r.2 then 1 else 0) + rest.2)

/-- Sample desired datasource without credentials, shaped like the example
in the source comment. -/
def dsProm : Datasource :=
  { service_name := "prometheus", url := "http://h:9090",
    description := "Juju generated source", type := "prometheus",
    username := none, password := none }

/-- A second sample desired datasource, distinct from dsProm. -/
def dsProm2 : Datasource := { dsProm with url := "http://h2:9090" }

/-- The sample desired datasource with both credential keys present. -/
def dsPromAuth : Datasource :=
  { dsProm with username := some "u1", password := some "p1" }

/-- Sample existing row that does not match dsProm by natural key. -/
def rowOther : DataSourceRow :=
  { id := 1, org_id := 1, version := 0, type := "graphite",
    name := "other - src", access := "proxy", url := "http://o:80",
    password := none, user := none, database := none,
    basic_auth := 1, basic_auth_user := some "keepme",
    basic_auth_password := some "secret", is_default := 1,
    json_data := some "jd", created := "c", updated := "u",
    with_credentials := 0 }

/-- Sample existing row matching dsProm by natural key. -/
def rowProm : DataSourceRow :=
  { id := 2, org_id := 1, version := 0, type := "prometheus",
    name := "prometheus - Juju generated source", access := "proxy",
    url := "http://h:9090", password := none, user := none,
    database := none, basic_auth := 0, basic_auth_user := none,
    basic_auth_password := none, is_default := 0, json_data := none,
    created := "c", updated := "u", with_credentials := 0 }

/-- Sample admin account row, shaped like the example in the source
comment. -/
def adminRow : UserRow :=
  { id := 1, version := 0, login := "admin", email := "e",
    name := some "Alice", password := some "old", salt := "LZeJ3nSdrC",
    rands := some "r", company := none, org_id := 1, is_admin := 1,
    email_verified := some 0, theme := some "dark", created := "c",
    updated := "u" }

/-- Sample non-admin account row. -/
def viewerRow : UserRow := { adminRow with login := "viewer" }

/-- A concrete key-derivation function used to instantiate the abstract
PBKDF2 argument in concrete evaluations. -/
def kdfTest : String → String → Nat → HashName → Nat → String :=
  fun p s _ _ _ => p ++ s

/-- Helper: a successful find? yields the first satisfying element, split
out of the list. -/
theorem find_split {α : Type} (p : α → Bool) (l : List α) (r : α)
    (h : l.find? p = some r) :
    ∃ pre post, l = pre ++ r :: post ∧ p r = true ∧
      ∀ x ∈ pre, p x = false := by
  induction l with
  | nil => simp [List.find?] at h
  | cons a t ih =>
    by_cases hpa : p a = true
    · rw [List.find?_cons_of_pos _ hpa] at h
      cases h
      exact ⟨[], t, rfl, hpa, by simp⟩
    · rw [List.find?_cons_of_neg _ hpa] at h
      obtain ⟨pre, post, he, hr, hall⟩ := ih h
      refine ⟨a :: pre, post, by simp [he], hr, ?_⟩
      intro x hx
      rcases List.mem_cons.mp hx with h1 | h1
      · subst h1
        exact Bool.not_eq_true _ ▸ Bool.of_not_eq_true hpa
      · exact hall x h1

/-- C1: reconciliation takes the update path, calling generate_query with
the matched rows is_default and id, iff some existing row satisfies the
natural-key test row.type == desired type, row.name == derived display
name, row.url == desired url; the first such row in list order is chosen,
and with no matching row the insert path runs instead. -/
theorem check_datasource_path_decision (ds : Datasource)
    (table : List DataSourceRow) (dtime : String) :
    (∃ pre row post, table = pre ++ row :: post ∧
       matchesDS ds row = true ∧
       (∀ r ∈ pre, matchesDS ds r = false) ∧
       check_datasource ds table dtime =
         (generate_query ds row.is_default (some row.id) dtime,
          applyQuery (generate_query ds row.is_default (some row.id) dtime)
            table))
    ∨ ((∀ r ∈ table, matchesDS ds r = false) ∧
       check_datasource ds table dtime =
         (generate_query ds 0 none dtime,
          applyQuery (generate_query ds 0 none dtime) table)) := by
  cases hf : table.find? (matchesDS ds) with
  | none =>
    right
    refine ⟨?_, by simp [check_datasource, hf]⟩
    intro r hr
    have := List.find?_eq_none.mp hf r hr
    simpa using this
  | some row =>
    left
    obtain ⟨pre, post, he, hm, hall⟩ := find_split _ _ _ hf
    exact ⟨pre, row, post, he, hm, hall, by simp [check_datasource, hf]⟩

/-- C2, evaluated at the failing input: the executed update statement has
no WHERE clause, so the basic auth fields of the non-matching row with
id 1 are overwritten together with those of the matched row with id 2. -/
theorem update_clobbers_unmatched_rows :
    ((check_datasource dsProm [rowOther, rowProm] "t").2.map
        (fun r => (r.id, r.basic_auth, r.basic_auth_user,
                   r.basic_auth_password))) =
      [(1, 0, some "", some ""), (2, 0, some "", some "")]
    ∧ rowOther.basic_auth_user = some "keepme"
    ∧ matchesDS dsProm rowOther = false := by decide

/-- C3: with no matching existing row, the executed insert appends exactly
one row with org_id 1, version 0, access proxy, is_default 0 as passed by
the caller, created and updated both equal to the current time, and basic
auth taken from the credentials: flag 1 with the verbatim username and
password when both are present, otherwise flag 0 with unset auth fields. -/
theorem insert_row_shape (ds : Datasource) (table : List DataSourceRow)
    (dtime : String)
    (h : ∀ r ∈ table, matchesDS ds r = false) :
    (check_datasource ds table dtime).2 =
      table ++ [{ id := nextId table, org_id := 1, version := 0,
                  type := ds.type,
                  name := ds.service_name ++ " - " ++ ds.description,
                  access := "proxy", url := ds.url,
                  password := none, user := none, database := none,
                  basic_auth := match ds.username, ds.password with
                    | some _, some _ => 1
                    | _, _ => 0,
                  basic_auth_user := match ds.username, ds.password with
                    | some u, some _ => some u
                    | _, _ => none,
                  basic_auth_password := match ds.username, ds.password with
                    | some _, some p => some p
                    | _, _ => none,
                  is_default := 0, json_data := none,
                  created := dtime, updated := dtime,
                  with_credentials := 0 }] := by
  have hf : table.find? (matchesDS ds) = none :=
    List.find?_eq_none.mpr (fun x hx => by simp [h x hx])
  rcases hu : ds.username with _ | u <;>
    rcases hp : ds.password with _ | p <;>
      simp +decide [check_datasource, hf, generate_query, pyIntTruthy,
        applyQuery, insertAuthStmt, insertNoAuthStmt, updateAuthStmt,
        updateNoAuthStmt, hu, hp]

/-- C3 witness: the insert shape at a concrete credentialed datasource and
a table holding one non-matching row. -/
theorem insert_row_shape_witness :
    (∀ r ∈ [rowOther], matchesDS dsPromAuth r = false)
    ∧ (check_datasource dsPromAuth [rowOther] "t").2 =
        [rowOther] ++
          [{ id := nextId [rowOther], org_id := 1, version := 0,
             type := "prometheus",
             name := "prometheus" ++ " - " ++ "Juju generated source",
             access := "proxy", url := "http://h:9090",
             password := none, user := none, database := none,
             basic_auth := 1, basic_auth_user := some "u1",
             basic_auth_password := some "p1", is_default := 0,
             json_data := none, created := "t", updated := "t",
             with_credentials := 0 }] :=
  ⟨by decide, insert_row_shape dsPromAuth [rowOther] "t" (by decide)⟩

/-- C10: a descriptor carrying exactly one of the two credential keys is
treated as credential-less on both paths: the insert query carries basic
auth flag 0, and the update query is the flag-0 statement with empty
strings, whose execution clears the basic auth fields of the rows it
touches. -/
theorem single_credential_key_treated_absent (ds : Datasource)
    (is_default : Int) (i : Int) (dtime : String)
    (table : List DataSourceRow)
    (h : ds.username.isSome ≠ ds.password.isSome) (hi : i ≠ 0) :
    generate_query ds is_default none dtime =
      (insertNoAuthStmt,
       [Value.int 1, Value.int 0, Value.str ds.type,
        Value.str (ds.service_name ++ " - " ++ ds.description),
        Value.str "proxy", Value.str ds.url, Value.int is_default,
        Value.str dtime, Value.str dtime, Value.int 0])
    ∧ generate_query ds is_default (some i) dtime =
      (updateNoAuthStmt, [Value.str "", Value.str ""])
    ∧ applyQuery (generate_query ds is_default (some i) dtime) table =
        table.map (fun r =>
          { r with basic_auth_user := some "",
                   basic_auth_password := some "", basic_auth := 0 }) := by
  rcases hu : ds.username with _ | u <;>
    rcases hp : ds.password with _ | p <;>
      simp [hu, hp] at h <;>
      refine ⟨?_, ?_, ?_⟩ <;>
        simp +decide [generate_query, pyIntTruthy, hu, hp, hi, applyQuery,
          insertAuthStmt, insertNoAuthStmt, updateAuthStmt,
          updateNoAuthStmt]

/-- C10 witness: a descriptor with a username but no password, on both
paths, over a one-row table. -/
theorem single_credential_key_treated_absent_witness :
    (({ dsProm2 with username := some "u1" } : Datasource).username.isSome ≠
        ({ dsProm2 with username := some "u1" } : Datasource).password.isSome)
    ∧ ((7 : Int) ≠ 0)
    ∧ (generate_query { dsProm2 with username := some "u1" } 0 none "t" =
        (insertNoAuthStmt,
         [Value.int 1, Value.int 0, Value.str "prometheus",
          Value.str ("prometheus" ++ " - " ++ "Juju generated source"),
          Value.str "proxy", Value.str "http://h2:9090", Value.int 0,
          Value.str "t", Value.str "t", Value.int 0])
      ∧ generate_query { dsProm2 with username := some "u1" } 0 (some 7) "t" =
        (updateNoAuthStmt, [Value.str "", Value.str ""])
      ∧ applyQuery
          (generate_query { dsProm2 with username := some "u1" } 0 (some 7) "t")
          [rowOther] =
          [rowOther].map (fun r =>
            { r with basic_auth_user := some "",
                     basic_auth_password := some "", basic_auth := 0 })) :=
  ⟨by decide, by decide,
   single_credential_key_treated_absent
     { dsProm2 with username := some "u1" } 0 7 "t" [rowOther]
     (by decide) (by decide)⟩

/-- C4: rotation with configured plaintext P stores as the new password
exactly the key derivation of P with the existing salt of the admin row,
10000 iterations, SHA-256 digest, 50 derived bytes hex-encoded, and the
salt column of every row is unchanged. -/
theorem rotation_hash_and_salt
    (kdf : String → String → Nat → HashName → Nat → String)
    (P : String) (cfg_ctx : Option String) (pwgen_out : String)
    (kv : Option String) (users : List UserRow) (row : UserRow)
    (hP : P ≠ "")
    (hfind : users.find? (fun r => r.login == "admin") = some row)
    (hh : kdf P row.salt 10000 HashName.sha256 50 ≠ "") :
    ((check_adminuser kdf (some P) cfg_ctx pwgen_out kv users).2.map
        (fun r => r.salt)) = users.map (fun r => r.salt)
    ∧ { row with
          email := "root+" ++
            (if pyStrTruthy cfg_ctx then cfg_ctx.getD "" else "UNKNOWN") ++
            "@canonical.com",
          name := some "BootStack Team",
          password := some (kdf P row.salt 10000 HashName.sha256 50),
          theme := some "light" } ∈
        (check_adminuser kdf (some P) cfg_ctx pwgen_out kv users).2 := by
  have htr : pyStrTruthy (some P) = true := by simp [pyStrTruthy, hP]
  have hrow : row ∈ users := List.mem_of_find?_eq_some hfind
  constructor
  · simp only [check_adminuser, htr, if_true, hfind, Option.getD_some,
      hpwgen, if_neg hh]
    rw [List.map_map]
    refine List.map_congr_left (fun r _ => ?_)
    by_cases hid : r.id = row.id <;> simp [hid]
  · simp only [check_adminuser, htr, if_true, hfind, Option.getD_some,
      hpwgen, if_neg hh]
    have himg := List.mem_map_of_mem
      (fun r : UserRow =>
        if r.id == row.id then
          { r with
              email := "root+" ++
                (if pyStrTruthy cfg_ctx then cfg_ctx.getD ""
                 else "UNKNOWN") ++ "@canonical.com",
              name := some "BootStack Team",
              password := some (kdf P row.salt 10000 HashName.sha256 50),
              theme := some "light" }
        else r) hrow
    simpa using himg

/-- C4 witness: rotation at a concrete admin row, configured password and
key derivation function. -/
theorem rotation_hash_and_salt_witness :
    ("pw" ≠ "")
    ∧ (List.find? (fun r => r.login == "admin") [adminRow] = some adminRow)
    ∧ (kdfTest "pw" adminRow.salt 10000 HashName.sha256 50 ≠ "")
    ∧ (((check_adminuser kdfTest (some "pw") none "g" none [adminRow]).2.map
          (fun r => r.salt)) = [adminRow].map (fun r => r.salt)
      ∧ { adminRow with
            email := "root+" ++
              (if pyStrTruthy none then Option.getD none ""
               else "UNKNOWN") ++ "@canonical.com",
            name := some "BootStack Team",
            password := some (kdfTest "pw" adminRow.salt 10000
              HashName.sha256 50),
            theme := some "light" } ∈
          (check_adminuser kdfTest (some "pw") none "g" none [adminRow]).2) :=
  ⟨by decide, by decide, by decide,
   rotation_hash_and_salt kdfTest "pw" none "g" none [adminRow] adminRow
     (by decide) (by decide) (by decide)⟩

/-- C5 counterexample: at this concrete input the rotation also rewrites
the name column of the admin row, from Alice to the literal BootStack
Team, so it does not update only the password, email and theme fields. -/
theorem rotation_also_updates_name :
    ((check_adminuser kdfTest (some "pw") none "g" none [adminRow]).2.map
        (fun r => r.name)) = [some "BootStack Team"]
    ∧ [adminRow].map (fun r => r.name) = [some "Alice"]
    ∧ (some "BootStack Team" : Option String) ≠ some "Alice" := by decide

/-- C5 amended: rotation updates exactly the email, name, password and
theme fields of the rows sharing the id of the first admin row: email is
root+context@canonical.com with context the configured nagios context or
UNKNOWN when not configured, name is the literal BootStack Team, theme is
light, and every other field, and every row with a different id, is left
unchanged. -/
theorem rotation_frame_amended
    (kdf : String → String → Nat → HashName → Nat → String)
    (cfg_pw cfg_ctx : Option String) (pwgen_out : String)
    (kv : Option String) (users : List UserRow) (row : UserRow)
    (hfind : users.find? (fun r => r.login == "admin") = some row)
    (hh : hpwgen kdf
        (if pyStrTruthy cfg_pw then cfg_pw.getD "" else pwgen_out)
        row.salt ≠ "") :
    (check_adminuser kdf cfg_pw cfg_ctx pwgen_out kv users).2 =
      users.map (fun r =>
        if r.id == row.id then
          { r with
              email := "root+" ++
                (if pyStrTruthy cfg_ctx then cfg_ctx.getD ""
                 else "UNKNOWN") ++ "@canonical.com",
              name := some "BootStack Team",
              password := some (hpwgen kdf
                (if pyStrTruthy cfg_pw then cfg_pw.getD "" else pwgen_out)
                row.salt),
              theme := some "light" }
        else r) := by
  simp only [check_adminuser, hfind, if_neg hh]

/-- C5 amended witness: the frame at a concrete admin table of two rows. -/
theorem rotation_frame_amended_witness :
    (List.find? (fun r => r.login == "admin") [viewerRow, adminRow] =
        some adminRow)
    ∧ (hpwgen kdfTest
        (if pyStrTruthy (some "pw") then Option.getD (some "pw") ""
         else "g") adminRow.salt ≠ "")
    ∧ (check_adminuser kdfTest (some "pw") (some "ctx") "g" none
        [viewerRow, adminRow]).2 =
      [viewerRow, adminRow].map (fun r =>
        if r.id == adminRow.id then
          { r with
              email := "root+" ++
                (if pyStrTruthy (some "ctx") then Option.getD (some "ctx") ""
                 else "UNKNOWN") ++ "@canonical.com",
              name := some "BootStack Team",
              password := some (hpwgen kdfTest
                (if pyStrTruthy (some "pw") then Option.getD (some "pw") ""
                 else "g") adminRow.salt),
              theme := some "light" }
        else r) :=
  ⟨by decide, by decide,
   rotation_frame_amended kdfTest (some "pw") (some "ctx") "g" none
     [viewerRow, adminRow] adminRow (by decide) (by decide)⟩

/-- C7: when no row has login admin, rotation leaves the user table
untouched; the function returns normally, so no error is raised. -/
theorem no_admin_row_noop
    (kdf : String → String → Nat → HashName → Nat → String)
    (cfg_pw cfg_ctx : Option String) (pwgen_out : String)
    (kv : Option String) (users : List UserRow)
    (h : ∀ r ∈ users, r.login ≠ "admin") :
    (check_adminuser kdf cfg_pw cfg_ctx pwgen_out kv users).2 = users := by
  have hf : users.find? (fun r => r.login == "admin") = none :=
    List.find?_eq_none.mpr (fun x hx => by simp [h x hx])
  simp [check_adminuser, hf]

/-- C7 witness: rotation over a table holding only a non-admin row. -/
theorem no_admin_row_noop_witness :
    (∀ r ∈ [viewerRow], r.login ≠ "admin")
    ∧ (check_adminuser kdfTest none none "g" none [viewerRow]).2 =
        [viewerRow] :=
  ⟨by decide,
   no_admin_row_noop kdfTest none none "g" none [viewerRow] (by decide)⟩

/-- C6: when the incoming snapshot equals the last-applied one the driver
returns at once, attempting no datasource and leaving the table untouched,
and a second application of any snapshot right after a first one attempts
nothing and leaves the table of the second application untouched. -/
theorem snapshot_idempotence (busy busy2 : Bool) (dtime dtime2 : String)
    (cache : Option (List Datasource)) (table table2 : List DataSourceRow)
    (sources : List Datasource) :
    configure_sources busy dtime (some sources) table sources =
      { cache := some sources, attempted := [],
        result := Except.ok table }
    ∧ configure_sources busy2 dtime2
        (configure_sources busy dtime cache table sources).cache
        table2 sources =
      { cache := some sources, attempted := [],
        result := Except.ok table2 } := by
  have hc : ∀ (b : Bool) (dt : String) (c : Option (List Datasource))
      (t : List DataSourceRow),
      (configure_sources b dt c t sources).cache = some sources := by
    intro b dt c t
    by_cases h : c = some sources <;>
      simp [configure_sources, data_changed, h]
  have hnoop : ∀ (b : Bool) (dt : String) (t : List DataSourceRow),
      configure_sources b dt (some sources) t sources =
        { cache := some sources, attempted := [],
          result := Except.ok t } := by
    intro b dt t
    simp [configure_sources, data_changed]
  refine ⟨hnoop busy dtime table, ?_⟩
  rw [hc busy dtime cache table]
  exact hnoop busy2 dtime2 table2

/-- C8 counterexample: with the store locked, the raised error while
reconciling the first datasource unwinds the loop, so the second
datasource of the same pass is never reconciled; the claimed isolation of
failures does not hold. -/
theorem failure_blocks_rest_cex :
    (reconcile_all true "t" [] [dsProm, dsProm2]).1 = [dsProm]
    ∧ (reconcile_all true "t" [] [dsProm, dsProm2]).2 =
        Except.error "database is locked"
    ∧ dsProm2 ∉ (reconcile_all true "t" [] [dsProm, dsProm2]).1 :=
  ⟨by decide, by rfl, by decide⟩

/-- C8 amended: when the reconciliation of one datasource raises, the pass
aborts: the error propagates out of the loop and none of the remaining
datasources is attempted; only that one failure is reported. -/
theorem failure_aborts_pass (busy : Bool) (dtime : String)
    (table : List DataSourceRow) (d : Datasource)
    (rest : List Datasource) (e : String)
    (h : check_datasourceE busy d table dtime = Except.error e) :
    reconcile_all busy dtime table (d :: rest) = ([d], Except.error e) := by
  simp [reconcile_all, h]

/-- C8 amended witness: a locked store, one failing datasource and one
remaining datasource. -/
theorem failure_aborts_pass_witness :
    check_datasourceE true dsProm [] "t" =
      Except.error "database is locked"
    ∧ reconcile_all true "t" [] [dsProm, dsProm2] =
        ([dsProm], Except.error "database is locked") :=
  ⟨by rfl,
   failure_aborts_pass true "t" [] dsProm [dsProm2]
     "database is locked" (by rfl)⟩

/-- C9 counterexample: a rotation pass starting from a cache already
holding a generated password pw1 ignores the cached value: it generates
and uses the fresh password pw2 and overwrites the cache with it, so a
later rotation pass does not reuse the cached password. -/
theorem later_pass_ignores_cache :
    (check_adminuser kdfTest none none "pw2" (some "pw1") [adminRow]).1 =
      some "pw2"
    ∧ ((check_adminuser kdfTest none none "pw2"
          (some "pw1") [adminRow]).2.map (fun r => r.password)) =
        [some "pw2LZeJ3nSdrC"]
    ∧ (some "pw2" : Option String) ≠ some "pw1" := by decide

/-- C9 amended: when no admin password is configured, the password is
generated during the single rotation the only-once gate of db_init allows,
and stored under the stable key: over any nonempty sequence of hook
invocations from a fresh unit state, at most one rotation runs and the
cached key holds the password generated by the first invocation.  The
cached value is never read back by a rotation pass. -/
theorem password_generated_once
    (kdf : String → String → Nat → HashName → Nat → String)
    (cfg_pw cfg_ctx : Option String) (users : List UserRow)
    (g : String) (gs : List String)
    (hcfg : pyStrTruthy cfg_pw = false) :
    (run_events kdf cfg_pw cfg_ctx
        { only_once_done := false, kv_admin_password := none,
          users := users } (g :: gs)).2 ≤ 1
    ∧ (run_events kdf cfg_pw cfg_ctx
        { only_once_done := false, kv_admin_password := none,
          users := users } (g :: gs)).1.kv_admin_password = some g := by
  have hdone : ∀ (kv2 : Option String) (us2 : List UserRow)
      (gs2 : List String),
      run_events kdf cfg_pw cfg_ctx
        { only_once_done := true, kv_admin_password := kv2,
          users := us2 } gs2 =
      ({ only_once_done := true, kv_admin_password := kv2,
         users := us2 }, 0) := by
    intro kv2 us2 gs2
    induction gs2 with
    | nil => rfl
    | cons a t ih => simp [run_events, db_init, ih]
  have hkv : (check_adminuser kdf cfg_pw cfg_ctx g none users).1 =
      some g := by
    simp [check_adminuser, hcfg]
  constructor
  · simp [run_events, db_init, hdone]
  · simp [run_events, db_init, hdone, hkv]

/-- C9 amended witness: two invocations from a fresh state with no
configured password. -/
theorem password_generated_once_witness :
    pyStrTruthy none = false
    ∧ (run_events kdfTest none none
        { only_once_done := false, kv_admin_password := none,
          users := [adminRow] } ["p1", "p2"]).2 ≤ 1
    ∧ (run_events kdfTest none none
        { only_once_done := false, kv_admin_password := none,
          users := [adminRow] } ["p1", "p2"]).1.kv_admin_password =
      some "p1" :=
  ⟨by decide,
   (password_generated_once kdfTest none none [adminRow] "p1" ["p2"]
      (by decide)).1,
   (password_generated_once kdfTest none none [adminRow] "p1" ["p2"]
      (by decide)).2⟩

end Grafana
